import Mathlib

/-!
Shallow embedding of the caddy-ratelimit sliding-window rate limiter.

Sources embedded (file, chunk containing the cited lines):
- `ratelimit.go`: `RateLimit`, `Provision`, `windowDuration`, `isByHost`,
  `refreshWindows`, `requestShouldBlock`, `getInterpolatedRequestCount`,
  `ServeHTTP`.
- `request_count_tracker.go`: `RequestCountTracker` (with the `_mutex`
  pointer field), `newRequestCountTracker`, `addRequestFor`,
  `getRequestCountFor`.
- `caddyfile.go`: `Validate`.

Modelling conventions:
- Time instants and durations are rationals, measured in seconds.  Go's
  `time.Time`/`time.Duration` have nanosecond resolution, and
  `getInterpolatedRequestCount` converts through `float64` seconds; the
  concrete values in the claims are exactly representable, so exact
  rational arithmetic is a faithful model of those computations.
  `time.Now()` becomes an explicit `now : ℚ` argument.  The two adjacent
  `time.Now()` calls inside `newRequestCountTracker` are modelled as one
  instant, as the spec does.
- Go maps with `int64` values are modelled as total functions
  `String → ℤ` (a missing key reads as 0, exactly Go's semantics for map
  reads; `requestCount[key]++` on an absent key creates the entry at 1).
- The `_mutex *sync.RWMutex` pointer is modelled by the flag
  `mutexInit : Bool`: the zero-value tracker has a nil mutex pointer, and
  calling `Lock`/`RLock` through a nil pointer panics.  Operations that
  would panic return `none`.
- `math.Round` rounds half away from zero; `goRound` implements that on ℚ.
- The background goroutine started by `Provision` only ever calls
  `refreshWindows`; concurrency/scheduling itself is outside the
  embedding, but `refreshWindows` - the entire state transition the
  goroutine performs - is embedded and reasoned about directly.
-/

namespace CaddyRateLimit

/-- Rounding half away from zero, the behaviour of Go's `math.Round`,
followed by the (exact, since the value is integral) `int64` conversion. -/
def goRound (q : ℚ) : ℤ :=
  if q < 0 then -⌊-q + 1/2⌋ else ⌊q + 1/2⌋

/-- `RequestCountTracker` from `request_count_tracker.go`: a
key-to-count map stamped with the window's start and end instants.
`mutexInit` records whether the `_mutex *sync.RWMutex` field points to a
real mutex (`newRequestCountTracker` initialises it) or is the nil
pointer of the zero value `RequestCountTracker{}`. -/
structure RequestCountTracker where
  requestCount : String → ℤ
  startTime : ℚ
  endTime : ℚ
  mutexInit : Bool

/-- `newRequestCountTracker`: blank tracker covering
`[now, now + windowLength)` with an initialised mutex. -/
def newRequestCountTracker (windowLength now : ℚ) : RequestCountTracker :=
  { requestCount := fun _ => 0
    startTime := now
    endTime := now + windowLength
    mutexInit := true }

/-- The Go zero value `RequestCountTracker{}`: nil counts map, zero
times, nil `_mutex` pointer. -/
def zeroValueTracker : RequestCountTracker :=
  { requestCount := fun _ => 0
    startTime := 0
    endTime := 0
    mutexInit := false }

/-- `addRequestFor`: takes the exclusive lock and increments the key's
counter.  `rct._mutex.Lock()` on the zero value dereferences a nil
pointer and panics, modelled as `none`. -/
def RequestCountTracker.addRequestFor (rct : RequestCountTracker) (key : String) :
    Option RequestCountTracker :=
  if rct.mutexInit then
    some { rct with
            requestCount := fun k =>
              if k = key then rct.requestCount k + 1 else rct.requestCount k }
  else none

/-- `getRequestCountFor`: takes the read lock and returns the key's
count (0 when absent).  `rct._mutex.RLock()` on the zero value panics,
modelled as `none`. -/
def RequestCountTracker.getRequestCountFor (rct : RequestCountTracker) (key : String) :
    Option ℤ :=
  if rct.mutexInit then some (rct.requestCount key) else none

/-- `RateLimit` from `ratelimit.go`.  The two window fields are Go
pointers that are nil until `Provision` runs, hence `Option`. -/
structure RateLimit where
  ByHeader : String
  WindowLength : ℤ
  MaxRequests : ℤ
  currentWindow : Option RequestCountTracker
  previousWindow : Option RequestCountTracker

/-- `windowDuration()`: `time.Duration(rl.WindowLength) * time.Second`,
i.e. `WindowLength` interpreted as a number of seconds. -/
def RateLimit.windowDuration (rl : RateLimit) : ℚ :=
  (rl.WindowLength : ℚ)

/-- `isByHost()`: address-based keying is selected when `ByHeader` is
empty. -/
def RateLimit.isByHost (rl : RateLimit) : Bool :=
  rl.ByHeader.length == 0

/-- `Provision`: when `currentWindow` is nil, install a fresh current
window and the zero-value `&RequestCountTracker{}` as previous window
(and start the background refresh goroutine, which repeatedly calls
`refreshWindows`; the goroutine itself is not part of the state
transition modelled here). -/
def Provision (rl : RateLimit) (now : ℚ) : RateLimit :=
  if rl.currentWindow.isNone then
    { rl with
        currentWindow := some (newRequestCountTracker rl.windowDuration now)
        previousWindow := some zeroValueTracker }
  else rl

/-- `refreshWindows`: if `currentWindow.endTime.Before(time.Now())`
(strictly earlier), move the current window to previous and install a
fresh current window; report whether the swap happened.  Dereferencing a
nil `currentWindow` would panic (`none`). -/
def refreshWindows (rl : RateLimit) (now : ℚ) : Option (RateLimit × Bool) :=
  match rl.currentWindow with
  | none => none
  | some cur =>
    if cur.endTime < now then
      some ({ rl with
                previousWindow := some cur
                currentWindow := some (newRequestCountTracker rl.windowDuration now) },
            true)
    else
      some (rl, false)

/-- The state `refreshWindows` installs when the swap fires. -/
def rolledState (rl : RateLimit) (cur : RequestCountTracker) (now : ℚ) : RateLimit :=
  { rl with
      previousWindow := some cur
      currentWindow := some (newRequestCountTracker rl.windowDuration now) }

/-- `getInterpolatedRequestCount`: blend the two windows' counts for
`key` with the raw (unclamped) fraction of the window that has elapsed.
Reads the current window's count first, then the previous window's; a
nil window pointer or a nil tracker mutex panics (`none`). -/
def getInterpolatedRequestCount (rl : RateLimit) (now : ℚ) (key : String) : Option ℤ :=
  match rl.currentWindow, rl.previousWindow with
  | some cur, some prev =>
    let currentWindowFraction : ℚ := (now - cur.startTime) / rl.windowDuration
    let previousWindowFraction : ℚ := 1 - currentWindowFraction
    match cur.getRequestCountFor key with
    | none => none
    | some c =>
      match prev.getRequestCountFor key with
      | none => none
      | some p =>
        some (goRound ((c : ℚ) * currentWindowFraction) +
              goRound ((p : ℚ) * previousWindowFraction))
  | _, _ => none

/-- `requestShouldBlock`: increment the key's counter in the current
window first, then compare the interpolated count against
`MaxRequests`.  The first component is the returned decision (`none`
when the call panics); the second is the limiter state at that point -
note that when the estimate panics the increment has already happened. -/
def requestShouldBlock (rl : RateLimit) (now : ℚ) (key : String) :
    Option Bool × RateLimit :=
  match rl.currentWindow with
  | none => (none, rl)
  | some cur =>
    match cur.addRequestFor key with
    | none => (none, rl)
    | some cur2 =>
      let rl2 := { rl with currentWindow := some cur2 }
      match getInterpolatedRequestCount rl2 now key with
      | none => (none, rl2)
      | some c => (some (decide (c > rl.MaxRequests)), rl2)

/-- `Validate` from `caddyfile.go`: rejects a non-positive request
ceiling or window length with a configuration error. -/
def Validate (rl : RateLimit) : Option String :=
  if rl.MaxRequests ≤ 0 ∨ rl.WindowLength ≤ 0 then
    some "max_requests and window_length must be positive"
  else
    none

/-- An inbound HTTP request as `ServeHTTP` consumes it: the remote
address and the header table (`r.Header.Get` returns the empty string
for an absent header, so a total function to `String` is the exact
model). -/
structure HTTPRequest where
  RemoteAddr : String
  header : String → String

/-- The observable outcome of one `ServeHTTP` call: whether a 429
status was written, whether the next handler in the pipeline was
invoked, and the limiter state afterwards. -/
structure ServeResult where
  wrote429 : Bool
  nextCalled : Bool
  state : RateLimit

/-- Index of the last `:` in a character list, `none` when absent -
`strings.LastIndex(r.RemoteAddr, ":")` with `-1` mapped to `none`. -/
def lastColonIndex : List Char → Option Nat
  | [] => none
  | c :: rest =>
    match lastColonIndex rest with
    | some i => some (i + 1)
    | none => if c = ':' then some 0 else none

/-- The host portion of `RemoteAddr`: everything before the last `:`,
or the whole string when there is no colon. -/
def stripPort (s : String) : String :=
  match lastColonIndex s.data with
  | some i => String.mk (s.data.take i)
  | none => s

/-- The tail of `ServeHTTP` once a key has been derived: ask
`requestShouldBlock`, write a 429 when it says block, and in every
non-panicking case fall through to `next.ServeHTTP(w, r)`. -/
def serveWithKey (rl : RateLimit) (key : String) (now : ℚ) : Option ServeResult :=
  match requestShouldBlock rl now key with
  | (none, _) => none
  | (some b, rl2) => some { wrote429 := b, nextCalled := true, state := rl2 }

/-- `ServeHTTP`: derive the key (host with port stripped, or the
designated header's value); a request lacking the designated header is
passed straight to the next handler without consulting the limiter. -/
def ServeHTTP (rl : RateLimit) (r : HTTPRequest) (now : ℚ) : Option ServeResult :=
  if rl.isByHost then
    serveWithKey rl (stripPort r.RemoteAddr) now
  else
    let header := r.header rl.ByHeader
    if header.length == 0 then
      some { wrote429 := false, nextCalled := true, state := rl }
    else
      serveWithKey rl header now

/-- The interpolation formula exactly as the spec words it:
`round(current.get(key) * currentFraction) + round(previous.get(key) *
previousFraction)` with `currentFraction = d / windowLength` for a
current window that started `d` ago. -/
def specInterpolatedCount (windowLength d cur prev : ℚ) : ℤ :=
  goRound (cur * (d / windowLength)) + goRound (prev * (1 - d / windowLength))

/-! Concrete limiter states used to evaluate the code at the inputs the
claims single out. -/

/-- Current window of the spec's interpolation worked example: 100
requests for key `K`, window `[0, 1200)` (20 minutes). -/
def exampleCurrent : RequestCountTracker :=
  { requestCount := fun k => if k = "K" then 100 else 0
    startTime := 0
    endTime := 1200
    mutexInit := true }

/-- Previous window of the worked example: 50 requests for key `K`. -/
def examplePrevious : RequestCountTracker :=
  { requestCount := fun k => if k = "K" then 50 else 0
    startTime := 0
    endTime := 0
    mutexInit := true }

/-- The worked-example limiter: 20-minute window, ceiling 200,
observed at `now = 600` (the current window started 10 minutes ago). -/
def exampleRL : RateLimit :=
  { ByHeader := ""
    WindowLength := 1200
    MaxRequests := 200
    currentWindow := some exampleCurrent
    previousWindow := some examplePrevious }

/-- Current window for the stale-window scenario of C1: `windowLength =
900s`, window `[0, 900)`, 5 requests recorded for key `k`; observed at
`now = 2100`, i.e. the window's `endTime` is 20 minutes in the past. -/
def staleCurrent : RequestCountTracker :=
  { requestCount := fun k => if k = "k" then 5 else 0
    startTime := 0
    endTime := 900
    mutexInit := true }

/-- Previous window for the stale-window scenario: 3 requests for `k`,
deliberately different from the current window's 5. -/
def stalePrevious : RequestCountTracker :=
  { requestCount := fun k => if k = "k" then 3 else 0
    startTime := 0
    endTime := 0
    mutexInit := true }

/-- The stale limiter of the C1 scenario. -/
def staleRL : RateLimit :=
  { ByHeader := ""
    WindowLength := 900
    MaxRequests := 100
    currentWindow := some staleCurrent
    previousWindow := some stalePrevious }

/-- Current window for the C3 scenario: `[0, 1200)`, no requests. -/
def skewCurrent : RequestCountTracker :=
  { requestCount := fun _ => 0
    startTime := 0
    endTime := 1200
    mutexInit := true }

/-- Previous window for the C3 scenario: 10 requests for key `k`. -/
def skewPrevious : RequestCountTracker :=
  { requestCount := fun k => if k = "k" then 10 else 0
    startTime := 0
    endTime := 0
    mutexInit := true }

/-- Limiter for the C3 scenario: 20-minute window `[0, 1200)` with no
current-window requests, 10 previous-window requests for key `k`,
observed at `now = 1800` (10 minutes past expiry, raw fraction 1.5). -/
def skewRL : RateLimit :=
  { ByHeader := ""
    WindowLength := 1200
    MaxRequests := 200
    currentWindow := some skewCurrent
    previousWindow := some skewPrevious }

/-- Current window for the C5 scenario: `[0, 100)`, already holding 10
requests from `1.2.3.4`. -/
def blockedCurrent : RequestCountTracker :=
  { requestCount := fun k => if k = "1.2.3.4" then 10 else 0
    startTime := 0
    endTime := 100
    mutexInit := true }

/-- Previous window for the C5 scenario: empty. -/
def blockedPrevious : RequestCountTracker :=
  { requestCount := fun _ => 0
    startTime := 0
    endTime := 0
    mutexInit := true }

/-- Limiter for the C5 scenario: address keying, ceiling 1. -/
def blockedRL : RateLimit :=
  { ByHeader := ""
    WindowLength := 100
    MaxRequests := 1
    currentWindow := some blockedCurrent
    previousWindow := some blockedPrevious }

/-- The C5 request: from `1.2.3.4:55`, no headers set. -/
def blockedRequest : HTTPRequest :=
  { RemoteAddr := "1.2.3.4:55"
    header := fun _ => "" }

/-- Current window for the C6 boundary scenario: `[0, 100)`, 7
requests for `k`; observed exactly at `now = 100 = endTime`. -/
def boundaryCurrent : RequestCountTracker :=
  { requestCount := fun k => if k = "k" then 7 else 0
    startTime := 0
    endTime := 100
    mutexInit := true }

/-- The C6 boundary limiter. -/
def boundaryRL : RateLimit :=
  { ByHeader := ""
    WindowLength := 100
    MaxRequests := 10
    currentWindow := some boundaryCurrent
    previousWindow := some
      { requestCount := fun _ => 0
        startTime := 0
        endTime := 0
        mutexInit := true } }

/-- A well-formed configuration with both knobs positive. -/
def validConfig : RateLimit :=
  { ByHeader := ""
    WindowLength := 60
    MaxRequests := 5
    currentWindow := none
    previousWindow := none }

/-- A header-keyed limiter used for the C8 scenario. -/
def headerRL : RateLimit :=
  { ByHeader := "Authorization"
    WindowLength := 60
    MaxRequests := 5
    currentWindow := some (newRequestCountTracker 60 0)
    previousWindow := some zeroValueTracker }

/-- A request that carries no headers at all. -/
def bareRequest : HTTPRequest :=
  { RemoteAddr := "10.0.0.1:4711"
    header := fun _ => "" }

/-! Helper lemmas for evaluating `goRound` on concrete rationals
(rational arithmetic does not reduce in the kernel, so the witnesses go
through `norm_num` and the floor characterisation instead). -/

/-- Evaluation rule for `goRound` on a non-negative argument. -/
theorem goRound_eq_of_nonneg (q : ℚ) (z : ℤ) (h1 : ¬q < 0)
    (h2 : (z : ℚ) ≤ q + 1/2) (h3 : q + 1/2 < z + 1) : goRound q = z := by
  rw [goRound, if_neg h1]
  rw [Int.floor_eq_iff]
  exact ⟨h2, by exact_mod_cast h3⟩

/-- Evaluation rule for `goRound` on a negative argument. -/
theorem goRound_eq_of_neg (q : ℚ) (z : ℤ) (h1 : q < 0)
    (h2 : (z : ℚ) ≤ -q + 1/2) (h3 : -q + 1/2 < z + 1) : goRound q = -z := by
  rw [goRound, if_pos h1]
  congr 1
  rw [Int.floor_eq_iff]
  exact ⟨h2, by exact_mod_cast h3⟩

/-- Closed form of `getInterpolatedRequestCount` on a limiter whose two
window pointers and tracker mutexes are initialised: the raw
(unclamped) fraction weighting of the two counts. -/
theorem getInterp_eq (rl : RateLimit) (cur prev : RequestCountTracker)
    (now : ℚ) (key : String)
    (hc : rl.currentWindow = some cur) (hp : rl.previousWindow = some prev)
    (hmc : cur.mutexInit = true) (hmp : prev.mutexInit = true) :
    getInterpolatedRequestCount rl now key =
      some (goRound ((cur.requestCount key : ℚ) *
              ((now - cur.startTime) / rl.windowDuration)) +
            goRound ((prev.requestCount key : ℚ) *
              (1 - (now - cur.startTime) / rl.windowDuration))) := by
  simp only [getInterpolatedRequestCount, hc, hp,
    RequestCountTracker.getRequestCountFor, hmc, hmp, if_true]

/-- The current window's tracker after `addRequestFor key`: the key's
counter is bumped, everything else kept. -/
def bumped (cur : RequestCountTracker) (key : String) : RequestCountTracker :=
  { cur with
      requestCount := fun k =>
        if k = key then cur.requestCount k + 1 else cur.requestCount k }

/-- Closed form of `requestShouldBlock` on a fully initialised limiter:
the current window's counter for `key` is bumped first, and the
decision compares the interpolated count - taken after the increment -
against `MaxRequests`. -/
theorem requestShouldBlock_eq (rl : RateLimit) (cur prev : RequestCountTracker)
    (key : String) (now : ℚ)
    (hc : rl.currentWindow = some cur) (hp : rl.previousWindow = some prev)
    (hmc : cur.mutexInit = true) (hmp : prev.mutexInit = true) :
    requestShouldBlock rl now key =
      (some (decide
          (goRound (((cur.requestCount key + 1 : ℤ) : ℚ) *
              ((now - cur.startTime) / rl.windowDuration)) +
           goRound (((prev.requestCount key : ℤ) : ℚ) *
              (1 - (now - cur.startTime) / rl.windowDuration)) > rl.MaxRequests)),
       { rl with currentWindow := some (bumped cur key) }) := by
  have hb : cur.addRequestFor key = some (bumped cur key) := by
    simp only [RequestCountTracker.addRequestFor, hmc, if_true, bumped]
  have hint : getInterpolatedRequestCount
      { rl with currentWindow := some (bumped cur key) } now key =
      some (goRound (((cur.requestCount key + 1 : ℤ) : ℚ) *
              ((now - cur.startTime) / rl.windowDuration)) +
            goRound (((prev.requestCount key : ℤ) : ℚ) *
              (1 - (now - cur.startTime) / rl.windowDuration))) := by
    rw [getInterp_eq { rl with currentWindow := some (bumped cur key) }
      (bumped cur key) prev now key rfl hp hmc hmp]
    simp [bumped, RateLimit.windowDuration]
  simp only [requestShouldBlock, hc, hb, hint]

/-- The state component of `requestShouldBlock` on an initialised
limiter: only the current window's counter for the key changes. -/
theorem requestShouldBlock_snd (rl : RateLimit) (cur : RequestCountTracker)
    (key : String) (now : ℚ)
    (hc : rl.currentWindow = some cur) (hmc : cur.mutexInit = true) :
    (requestShouldBlock rl now key).2 =
      { rl with currentWindow := some (bumped cur key) } := by
  have hb : cur.addRequestFor key = some (bumped cur key) := by
    simp only [RequestCountTracker.addRequestFor, hmc, if_true, bumped]
  simp only [requestShouldBlock, hc, hb]
  rcases h : getInterpolatedRequestCount
      { rl with currentWindow := some (bumped cur key) } now key with _ | c <;>
    simp [h]

/-- C6 (counterexample): at the boundary instant `now = endTime = 100`
the claim requires the rollover to fire, but `refreshWindows` uses the
strict test `endTime.Before(now)` and returns `false`, leaving the
limiter unchanged. -/
theorem c6_counterexample :
    boundaryCurrent.endTime ≤ (100 : ℚ) ∧
    refreshWindows boundaryRL 100 = some (boundaryRL, false) := by
  constructor
  · norm_num [boundaryCurrent]
  · simp only [refreshWindows, boundaryRL]
    rw [if_neg (by norm_num [boundaryCurrent])]

/-- C6 (amended): `refreshWindows` performs the rollover if and only if
`now` is strictly after `current.endTime` (at the boundary instant
`now = endTime` it returns `false` and changes nothing); when it fires,
the former current window becomes the previous window and the new
current window has empty counts, `startTime = now` and `endTime = now +
windowLength`. -/
theorem c6_refresh_strict (rl : RateLimit) (cur : RequestCountTracker) (now : ℚ)
    (hc : rl.currentWindow = some cur) :
    (cur.endTime < now →
      refreshWindows rl now = some (rolledState rl cur now, true) ∧
      rolledState rl cur now = { rl with
        previousWindow := some cur
        currentWindow := some (newRequestCountTracker rl.windowDuration now) } ∧
      (newRequestCountTracker rl.windowDuration now).requestCount = (fun _ => 0) ∧
      (newRequestCountTracker rl.windowDuration now).startTime = now ∧
      (newRequestCountTracker rl.windowDuration now).endTime = now + rl.windowDuration) ∧
    (¬cur.endTime < now → refreshWindows rl now = some (rl, false)) := by
  refine ⟨fun h => ⟨?_, rfl, rfl, rfl, rfl⟩, fun h => ?_⟩
  · simp only [refreshWindows, hc]
    rw [if_pos h]
    rfl
  · simp only [refreshWindows, hc]
    rw [if_neg h]

/-- C6 (witness): the amended theorem applied to the boundary limiter
observed at `now = 150`, strictly after `endTime = 100`, where the swap
does fire. -/
theorem c6_refresh_strict_witness :
    refreshWindows boundaryRL 150 = some (rolledState boundaryRL boundaryCurrent 150, true) :=
  ((c6_refresh_strict boundaryRL boundaryCurrent 150 rfl).1
    (by norm_num [boundaryCurrent])).1

/-- C7: `Validate` reports a configuration error exactly when
`MaxRequests <= 0` or `WindowLength <= 0`, and accepts every
configuration in which both are positive. -/
theorem c7_validate_iff (rl : RateLimit) :
    ((Validate rl).isSome ↔ (rl.MaxRequests ≤ 0 ∨ rl.WindowLength ≤ 0)) ∧
    (0 < rl.MaxRequests → 0 < rl.WindowLength → Validate rl = none) := by
  constructor
  · rw [Validate]
    split
    · next h => simpa using h
    · next h => simpa using h
  · intro h1 h2
    rw [Validate, if_neg]
    push_neg
    exact ⟨h1, h2⟩

/-- C7 (witness): the theorem applied to a configuration with window
length 60 and ceiling 5, which validates cleanly. -/
theorem c7_validate_iff_witness : Validate validConfig = none :=
  (c7_validate_iff validConfig).2 (by decide) (by decide)

/-- C9: once `refreshWindows` has performed a swap at instant `now`,
any subsequent call at an instant before the new window's
`endTime = now + windowLength` returns `false` and leaves both windows
untouched - a rollover never executes twice for the same expiry. -/
theorem c9_rollover_idempotent (rl : RateLimit) (cur : RequestCountTracker)
    (now now2 : ℚ) (hc : rl.currentWindow = some cur) (hfire : cur.endTime < now)
    (hbefore : now2 < now + rl.windowDuration) :
    refreshWindows rl now = some (rolledState rl cur now, true) ∧
    refreshWindows (rolledState rl cur now) now2 = some (rolledState rl cur now, false) := by
  constructor
  · simp only [refreshWindows, hc]
    rw [if_pos hfire]
    rfl
  · simp only [refreshWindows, rolledState, newRequestCountTracker]
    rw [if_neg (not_lt.mpr hbefore.le)]

/-- C9 (witness): the theorem at the boundary limiter, rolled over at
`now = 150`; a second call at `now = 200 < 250 = new endTime` is a
no-op. -/
theorem c9_rollover_idempotent_witness :
    boundaryCurrent.endTime < (150 : ℚ) ∧
    (200 : ℚ) < 150 + boundaryRL.windowDuration ∧
    refreshWindows (rolledState boundaryRL boundaryCurrent 150) 200 =
      some (rolledState boundaryRL boundaryCurrent 150, false) :=
  ⟨by norm_num [boundaryCurrent],
   by norm_num [boundaryRL, RateLimit.windowDuration],
   (c9_rollover_idempotent boundaryRL boundaryCurrent 150 200 rfl
      (by norm_num [boundaryCurrent])
      (by norm_num [boundaryRL, RateLimit.windowDuration])).2⟩

/-- C10: on a fresh (unexpired) window, `requestShouldBlock` changes
only the current window's counter for the requested key, incrementing
it by exactly 1; start and end times of both windows and every other
key's count are untouched, and the previous window is unchanged. -/
theorem c10_frame (rl : RateLimit) (cur : RequestCountTracker) (key : String) (now : ℚ)
    (hc : rl.currentWindow = some cur) (hmc : cur.mutexInit = true)
    (hfresh : now < cur.endTime) :
    ∃ cur2,
      (requestShouldBlock rl now key).2 = { rl with currentWindow := some cur2 } ∧
      (requestShouldBlock rl now key).2.previousWindow = rl.previousWindow ∧
      cur2.startTime = cur.startTime ∧
      cur2.endTime = cur.endTime ∧
      cur2.requestCount key = cur.requestCount key + 1 ∧
      ∀ k, k ≠ key → cur2.requestCount k = cur.requestCount k := by
  refine ⟨bumped cur key, requestShouldBlock_snd rl cur key now hc hmc, ?_, rfl, rfl,
    by simp [bumped], fun k hk => by simp [bumped, hk]⟩
  rw [requestShouldBlock_snd rl cur key now hc hmc]

/-- C10 (witness): the frame theorem applied to the worked-example
limiter at `now = 600`, inside the window `[0, 1200)`. -/
theorem c10_frame_witness :
    exampleRL.currentWindow = some exampleCurrent ∧
    exampleCurrent.mutexInit = true ∧
    (600 : ℚ) < exampleCurrent.endTime ∧
    ∃ cur2,
      (requestShouldBlock exampleRL 600 "K").2 = { exampleRL with currentWindow := some cur2 } ∧
      (requestShouldBlock exampleRL 600 "K").2.previousWindow = exampleRL.previousWindow ∧
      cur2.startTime = exampleCurrent.startTime ∧
      cur2.endTime = exampleCurrent.endTime ∧
      cur2.requestCount "K" = exampleCurrent.requestCount "K" + 1 ∧
      ∀ k, k ≠ "K" → cur2.requestCount k = exampleCurrent.requestCount k :=
  ⟨rfl, rfl, by norm_num [exampleCurrent],
   c10_frame exampleRL exampleCurrent "K" 600 rfl rfl (by norm_num [exampleCurrent])⟩

/-- C4: immediately after `Provision`, the previous window is the
zero-value tracker whose `_mutex` pointer is nil; reading it via
`getRequestCountFor` panics (`none`), so the first
`getInterpolatedRequestCount`/`requestShouldBlock` call faults instead
of returning a zero previous-window contribution. -/
theorem c4_provision_previous_faults (rl : RateLimit) (now now2 : ℚ) (key : String)
    (h : rl.currentWindow = none) :
    (Provision rl now).previousWindow = some zeroValueTracker ∧
    zeroValueTracker.mutexInit = false ∧
    zeroValueTracker.getRequestCountFor key = none ∧
    getInterpolatedRequestCount (Provision rl now) now2 key = none ∧
    (requestShouldBlock (Provision rl now) now2 key).1 = none := by
  have hp : Provision rl now =
      { rl with
          currentWindow := some (newRequestCountTracker rl.windowDuration now)
          previousWindow := some zeroValueTracker } := by
    rw [Provision, if_pos (by rw [h]; rfl)]
  exact ⟨by rw [hp], rfl, rfl, by rw [hp]; rfl, by rw [hp]; rfl⟩

/-- C4 (witness): provisioning the valid configuration at `now = 0` and
asking for a decision at `now = 30` faults on the nil previous-window
mutex. -/
theorem c4_provision_previous_faults_witness :
    validConfig.currentWindow = none ∧
    ((Provision validConfig 0).previousWindow = some zeroValueTracker ∧
     zeroValueTracker.mutexInit = false ∧
     zeroValueTracker.getRequestCountFor "10.0.0.1" = none ∧
     getInterpolatedRequestCount (Provision validConfig 0) 30 "10.0.0.1" = none ∧
     (requestShouldBlock (Provision validConfig 0) 30 "10.0.0.1").1 = none) :=
  ⟨rfl, c4_provision_previous_faults validConfig 0 30 "10.0.0.1" rfl⟩

/-- C8: with header keying configured and the designated header absent
or empty, `ServeHTTP` hands the request straight to the next handler:
no 429, no decision, and the limiter state - both windows, all
counters - is exactly what it was. -/
theorem c8_absent_header_admits (rl : RateLimit) (r : HTTPRequest) (now : ℚ)
    (hb : rl.ByHeader.length ≠ 0) (hh : (r.header rl.ByHeader).length = 0) :
    ServeHTTP rl r now = some { wrote429 := false, nextCalled := true, state := rl } := by
  have h1 : rl.isByHost = false := by
    rw [RateLimit.isByHost, beq_eq_false_iff_ne]
    exact hb
  simp [ServeHTTP, h1, hh]

/-- C8 (witness): the header-keyed limiter admits a request that
carries no `Authorization` header, leaving the state untouched. -/
theorem c8_absent_header_admits_witness :
    headerRL.ByHeader.length ≠ 0 ∧
    (bareRequest.header headerRL.ByHeader).length = 0 ∧
    ServeHTTP headerRL bareRequest 0 =
      some { wrote429 := false, nextCalled := true, state := headerRL } :=
  ⟨by decide, rfl, c8_absent_header_admits headerRL bareRequest 0 (by decide) rfl⟩

/-- C1 (counterexample): in the stale limiter (current window expired
20 minutes ago) `requestShouldBlock` performs no rollover: afterwards
the previous window still holds its old count 3 for `k` - not the 5
the claim says it must inherit from the pre-call current window - and
the current window holds 6, not the zero counts the claim requires. -/
theorem c1_counterexample :
    staleCurrent.endTime ≤ (2100 : ℚ) ∧
    ((requestShouldBlock staleRL 2100 "k").2.previousWindow.map
      fun t => t.requestCount "k") = some 3 ∧
    staleCurrent.requestCount "k" = 5 ∧
    (3 : ℤ) ≠ 5 ∧
    ((requestShouldBlock staleRL 2100 "k").2.currentWindow.map
      fun t => t.requestCount "k") = some 6 ∧
    (6 : ℤ) ≠ 0 := by
  have hs := requestShouldBlock_snd staleRL staleCurrent "k" 2100 rfl rfl
  refine ⟨by norm_num [staleCurrent], ?_, by simp [staleCurrent], by decide, ?_, by decide⟩
  · rw [hs]
    simp [staleRL, stalePrevious]
  · rw [hs]
    simp [bumped, staleCurrent]

/-- C1 (amended): `requestShouldBlock` applies no rollover even when
the current window has expired - the previous window is left exactly
as it was and the current window keeps its start and end times, only
the requested key's counter changing by 1; the rollover itself is
performed only by `refreshWindows` (driven by the background timer),
which on a call strictly after expiry installs the old current window
as the previous window and a fresh zero-count current window in a
single catch-up. -/
theorem c1_no_lazy_rollover (rl : RateLimit) (cur : RequestCountTracker) (key : String)
    (now : ℚ) (hc : rl.currentWindow = some cur) (hmc : cur.mutexInit = true)
    (hstale : cur.endTime ≤ now) :
    ((requestShouldBlock rl now key).2.previousWindow = rl.previousWindow ∧
     (requestShouldBlock rl now key).2.currentWindow = some (bumped cur key) ∧
     (bumped cur key).startTime = cur.startTime ∧
     (bumped cur key).endTime = cur.endTime ∧
     (bumped cur key).requestCount key = cur.requestCount key + 1 ∧
     ∀ k, k ≠ key → (bumped cur key).requestCount k = cur.requestCount k) ∧
    (cur.endTime < now →
      refreshWindows rl now = some (rolledState rl cur now, true) ∧
      (newRequestCountTracker rl.windowDuration now).requestCount = fun _ => 0) := by
  have hs := requestShouldBlock_snd rl cur key now hc hmc
  refine ⟨⟨by rw [hs], by rw [hs], rfl, rfl, by simp [bumped], fun k hk => by simp [bumped, hk]⟩,
    fun h => ⟨?_, rfl⟩⟩
  simp only [refreshWindows, hc]
  rw [if_pos h]
  rfl

/-- C1 (witness): the amended theorem at the stale limiter. -/
theorem c1_no_lazy_rollover_witness :
    staleCurrent.endTime ≤ (2100 : ℚ) ∧
    (((requestShouldBlock staleRL 2100 "k").2.previousWindow = staleRL.previousWindow ∧
      (requestShouldBlock staleRL 2100 "k").2.currentWindow = some (bumped staleCurrent "k") ∧
      (bumped staleCurrent "k").startTime = staleCurrent.startTime ∧
      (bumped staleCurrent "k").endTime = staleCurrent.endTime ∧
      (bumped staleCurrent "k").requestCount "k" = staleCurrent.requestCount "k" + 1 ∧
      ∀ k, k ≠ "k" → (bumped staleCurrent "k").requestCount k = staleCurrent.requestCount k) ∧
     (staleCurrent.endTime < 2100 →
       refreshWindows staleRL 2100 = some (rolledState staleRL staleCurrent 2100, true) ∧
       (newRequestCountTracker staleRL.windowDuration 2100).requestCount = fun _ => 0)) :=
  ⟨by norm_num [staleCurrent],
   c1_no_lazy_rollover staleRL staleCurrent "k" 2100 rfl rfl (by norm_num [staleCurrent])⟩

/-- C3 (counterexample): observed 10 minutes after expiry, the raw
fraction is 1.5 and the previous-window weight is -0.5; with 0 current
and 10 previous requests for `k` the code returns the negative estimate
-5, so the fraction is not clamped and the estimate is not always
non-negative. -/
theorem c3_counterexample :
    getInterpolatedRequestCount skewRL 1800 "k" = some (-5) ∧ (-5 : ℤ) < 0 := by
  refine ⟨?_, by decide⟩
  rw [getInterp_eq skewRL skewCurrent skewPrevious 1800 "k" rfl rfl rfl rfl]
  have e1 : ((skewCurrent.requestCount "k" : ℤ) : ℚ) *
      ((1800 - skewCurrent.startTime) / skewRL.windowDuration) = 0 := by
    norm_num [skewCurrent, skewRL, RateLimit.windowDuration]
  have e2 : ((skewPrevious.requestCount "k" : ℤ) : ℚ) *
      (1 - (1800 - skewCurrent.startTime) / skewRL.windowDuration) = -5 := by
    norm_num [skewCurrent, skewPrevious, skewRL, RateLimit.windowDuration]
  rw [e1, e2]
  rw [goRound_eq_of_nonneg 0 0 (by norm_num) (by norm_num) (by norm_num)]
  rw [show goRound (-5 : ℚ) = ((-5 : ℤ)) from
    goRound_eq_of_neg (-5) 5 (by norm_num) (by norm_num) (by norm_num)]
  norm_num

/-- C3 (amended): `getInterpolatedRequestCount` uses the raw fraction
`(now - current.startTime) / windowLength` without clamping it to
`[0, 1]`, for every observation instant `now` - including instants
before `startTime` or past `endTime`, where the weights leave `[0, 1]`
and the estimate can go negative. -/
theorem c3_unclamped_fraction (rl : RateLimit) (cur prev : RequestCountTracker)
    (now : ℚ) (key : String)
    (hc : rl.currentWindow = some cur) (hp : rl.previousWindow = some prev)
    (hmc : cur.mutexInit = true) (hmp : prev.mutexInit = true) :
    getInterpolatedRequestCount rl now key =
      some (goRound ((cur.requestCount key : ℚ) *
              ((now - cur.startTime) / rl.windowDuration)) +
            goRound ((prev.requestCount key : ℚ) *
              (1 - (now - cur.startTime) / rl.windowDuration))) :=
  getInterp_eq rl cur prev now key hc hp hmc hmp

/-- C3 (witness): the amended theorem at the skewed limiter, whose raw
fraction at `now = 1800` is `3/2`, outside `[0, 1]`. -/
theorem c3_unclamped_fraction_witness :
    skewRL.currentWindow = some skewCurrent ∧
    skewRL.previousWindow = some skewPrevious ∧
    (1800 - skewCurrent.startTime) / skewRL.windowDuration = 3/2 ∧
    getInterpolatedRequestCount skewRL 1800 "k" =
      some (goRound ((skewCurrent.requestCount "k" : ℚ) *
              ((1800 - skewCurrent.startTime) / skewRL.windowDuration)) +
            goRound ((skewPrevious.requestCount "k" : ℚ) *
              (1 - (1800 - skewCurrent.startTime) / skewRL.windowDuration))) :=
  ⟨rfl, rfl, by norm_num [skewCurrent, skewRL, RateLimit.windowDuration],
   c3_unclamped_fraction skewRL skewCurrent skewPrevious 1800 "k" rfl rfl rfl rfl⟩

/-- C2: inside the window (`0 <= d <= windowLength`) the estimate is
`round(currentCount * d/W) + round(previousCount * (1 - d/W))` with
round-half-away-from-zero, exactly the spec's formula; and on the
worked example (window 20 min, current started 10 min ago, counts
100/50) the estimate is 75, while `requestShouldBlock` - incrementing
to 101 and re-estimating 76 - returns `false` at ceiling 200 and
`true` at ceiling 50. -/
theorem c2_interpolation (rl : RateLimit) (cur prev : RequestCountTracker)
    (key : String) (now : ℚ)
    (hc : rl.currentWindow = some cur) (hp : rl.previousWindow = some prev)
    (hmc : cur.mutexInit = true) (hmp : prev.mutexInit = true)
    (hW : 0 < rl.WindowLength) (hd0 : 0 ≤ now - cur.startTime)
    (hdW : now - cur.startTime ≤ rl.windowDuration) :
    getInterpolatedRequestCount rl now key =
      some (specInterpolatedCount rl.windowDuration (now - cur.startTime)
        ((cur.requestCount key : ℚ)) ((prev.requestCount key : ℚ))) ∧
    getInterpolatedRequestCount exampleRL 600 "K" = some 75 ∧
    (requestShouldBlock exampleRL 600 "K").1 = some false ∧
    (requestShouldBlock { exampleRL with MaxRequests := 50 } 600 "K").1 = some true := by
  have e1 : ((exampleCurrent.requestCount "K" : ℤ) : ℚ) *
      ((600 - exampleCurrent.startTime) / exampleRL.windowDuration) = 50 := by
    norm_num [exampleCurrent, exampleRL, RateLimit.windowDuration]
  have e2 : ((examplePrevious.requestCount "K" : ℤ) : ℚ) *
      (1 - (600 - exampleCurrent.startTime) / exampleRL.windowDuration) = 25 := by
    norm_num [exampleCurrent, examplePrevious, exampleRL, RateLimit.windowDuration]
  have e3 : ((exampleCurrent.requestCount "K" + 1 : ℤ) : ℚ) *
      ((600 - exampleCurrent.startTime) / exampleRL.windowDuration) = 101/2 := by
    norm_num [exampleCurrent, exampleRL, RateLimit.windowDuration]
  refine ⟨?_, ?_, ?_, ?_⟩
  · rw [getInterp_eq rl cur prev now key hc hp hmc hmp]
    rfl
  · rw [getInterp_eq exampleRL exampleCurrent examplePrevious 600 "K" rfl rfl rfl rfl]
    rw [e1, e2,
      goRound_eq_of_nonneg 50 50 (by norm_num) (by norm_num) (by norm_num),
      goRound_eq_of_nonneg 25 25 (by norm_num) (by norm_num) (by norm_num)]
    norm_num
  · rw [requestShouldBlock_eq exampleRL exampleCurrent examplePrevious "K" 600 rfl rfl rfl rfl]
    rw [e3, e2,
      goRound_eq_of_nonneg (101/2) 51 (by norm_num) (by norm_num) (by norm_num),
      goRound_eq_of_nonneg 25 25 (by norm_num) (by norm_num) (by norm_num)]
    decide
  · rw [requestShouldBlock_eq { exampleRL with MaxRequests := 50 }
      exampleCurrent examplePrevious "K" 600 rfl rfl rfl rfl]
    rw [show ((exampleCurrent.requestCount "K" + 1 : ℤ) : ℚ) *
        ((600 - exampleCurrent.startTime) /
          RateLimit.windowDuration { exampleRL with MaxRequests := 50 }) = 101/2 from by
      norm_num [exampleCurrent, exampleRL, RateLimit.windowDuration]]
    rw [show ((examplePrevious.requestCount "K" : ℤ) : ℚ) *
        (1 - (600 - exampleCurrent.startTime) /
          RateLimit.windowDuration { exampleRL with MaxRequests := 50 }) = 25 from by
      norm_num [exampleCurrent, examplePrevious, exampleRL, RateLimit.windowDuration]]
    rw [goRound_eq_of_nonneg (101/2) 51 (by norm_num) (by norm_num) (by norm_num),
      goRound_eq_of_nonneg 25 25 (by norm_num) (by norm_num) (by norm_num)]
    decide

/-- C2 (witness): the theorem at the worked-example limiter, where the
window started 600 seconds (half a window) before the observation. -/
theorem c2_interpolation_witness :
    0 < exampleRL.WindowLength ∧
    0 ≤ (600 : ℚ) - exampleCurrent.startTime ∧
    (600 : ℚ) - exampleCurrent.startTime ≤ exampleRL.windowDuration ∧
    (getInterpolatedRequestCount exampleRL 600 "K" =
      some (specInterpolatedCount exampleRL.windowDuration (600 - exampleCurrent.startTime)
        ((exampleCurrent.requestCount "K" : ℚ)) ((examplePrevious.requestCount "K" : ℚ))) ∧
     getInterpolatedRequestCount exampleRL 600 "K" = some 75 ∧
     (requestShouldBlock exampleRL 600 "K").1 = some false ∧
     (requestShouldBlock { exampleRL with MaxRequests := 50 } 600 "K").1 = some true) :=
  ⟨by decide, by norm_num [exampleCurrent],
   by norm_num [exampleCurrent, exampleRL, RateLimit.windowDuration],
   c2_interpolation exampleRL exampleCurrent examplePrevious "K" 600 rfl rfl rfl rfl
     (by decide) (by norm_num [exampleCurrent])
     (by norm_num [exampleCurrent, exampleRL, RateLimit.windowDuration])⟩

/-- C5: a request whose key is over the limit gets a 429 status
written, but `ServeHTTP` then falls through to
`return next.ServeHTTP(w, r)` - the next handler is still invoked, so
the pipeline is not short-circuited as the claim (and the spec's
collaborator contract) requires. -/
theorem c5_blocked_request_still_forwarded :
    (ServeHTTP blockedRL blockedRequest 50).map (fun res => (res.wrote429, res.nextCalled)) =
      some (true, true) := by
  have hserve : ServeHTTP blockedRL blockedRequest 50 = serveWithKey blockedRL "1.2.3.4" 50 := rfl
  rw [hserve, serveWithKey,
    requestShouldBlock_eq blockedRL blockedCurrent blockedPrevious "1.2.3.4" 50 rfl rfl rfl rfl]
  have e1 : ((blockedCurrent.requestCount "1.2.3.4" + 1 : ℤ) : ℚ) *
      ((50 - blockedCurrent.startTime) / blockedRL.windowDuration) = 11/2 := by
    norm_num [blockedCurrent, blockedRL, RateLimit.windowDuration]
  have e2 : ((blockedPrevious.requestCount "1.2.3.4" : ℤ) : ℚ) *
      (1 - (50 - blockedCurrent.startTime) / blockedRL.windowDuration) = 0 := by
    norm_num [blockedPrevious, blockedCurrent, blockedRL, RateLimit.windowDuration]
  rw [e1, e2,
    goRound_eq_of_nonneg (11/2) 6 (by norm_num) (by norm_num) (by norm_num),
    goRound_eq_of_nonneg 0 0 (by norm_num) (by norm_num) (by norm_num)]
  decide

end CaddyRateLimit
